import Mathlib

/-!
Shallow embedding of the Ansible VMware modules
(`vmware_clone_template.py`, `vmware_ovf_deploy.py`) and proofs of the
behavioural properties stated in the specification.

Python strings under truthiness tests are embedded as `Option String`
(None ↦ `none`, a string s ↦ `some s`); `if name:` in Python is the
test `strTruthy name`.  `module.fail_json` / `module.exit_json` abort
the process, so a function containing them is embedded as a function
returning a sum-like outcome type whose terminal constructors stand for
those aborts.
-/

/-- Python truthiness of an optional string: `None` and `""` are falsy. -/
def strTruthy : Option String → Bool
  | none => false
  | some s => !s.isEmpty

/-! ### Object lookup (`get_obj`, vmware_clone_template.py lines 89-106) -/

/-- An inventory object as seen by `get_obj`: only its name is inspected. -/
structure InvObj where
  name : String
deriving DecidableEq

/-- Embeds `get_obj` (lines 89-106): walk the container view in order;
with a truthy name return the first exact name match, otherwise return
the first candidate; `None` when nothing is found. -/
def get_obj (candidates : List InvObj) (name : Option String) : Option InvObj :=
  match candidates with
  | [] => none
  | c :: rest =>
    if strTruthy name then
      if name = some c.name then some c else get_obj rest name
    else some c

/-! ### Event scanning (`check_events`, vmware_clone_template.py lines 123-146) -/

/-- A vCenter event as consumed by `check_events`: its WSDL type name
and its `fullFormattedMessage`. -/
structure VmEvent where
  wsdlName : String
  fullFormattedMessage : String
deriving DecidableEq

/-- Outcome of one `check_events` pass. `failedNow` / `succeededNow`
stand for the `module.fail_json` / `module.exit_json` aborts (each with
`changed=True` and the message built at that call site); `noTerminal`
is the normal return of `current_status`. -/
inductive EventOutcome where
  | failedNow (msg : String)
  | succeededNow (msg : String)
  | noTerminal (status : String)
deriving DecidableEq

/-- The if/elif chain of `check_events` (lines 133-144) applied to one
event: the terminal outcome it triggers, if any. -/
def terminalOutcome (e : VmEvent) : Option EventOutcome :=
  let current_status := e.fullFormattedMessage
  if e.wsdlName = "CustomizationFailed" then
    some (.failedNow ("Customization Failed - " ++ current_status))
  else if e.wsdlName = "CustomizationLinuxIdentityFailed" then
    some (.failedNow ("Customization Failed - Linux Identity Failed - " ++ current_status))
  else if e.wsdlName = "CustomizationNetworkSetupFailed" then
    some (.failedNow ("Customization Failed - Network Setup Failed - " ++ current_status))
  else if e.wsdlName = "CustomizationSysprepFailed" then
    some (.failedNow ("Customization Failed - Sysprep Failed - " ++ current_status))
  else if e.wsdlName = "CustomizationUnknownFailure" then
    some (.failedNow ("Customization Failed - Unknown Failure - " ++ current_status))
  else if e.wsdlName = "CustomizationSucceeded" then
    some (.succeededNow ("Successfully Deployed and customized OS - " ++ current_status))
  else none

/-- Embeds `check_events` (lines 123-146): scan the events in delivered
order, updating `current_status` to each event's formatted message; the
first event whose type matches the terminal chain aborts with its
outcome; otherwise return the final `current_status`. -/
def check_events : List VmEvent → String → EventOutcome
  | [], current_status => .noTerminal current_status
  | e :: rest, _ =>
    match terminalOutcome e with
    | some o => o
    | none => check_events rest e.fullFormattedMessage

/-- The value `current_status` holds after scanning `events` without a
terminal abort, starting from `s`: the last event's formatted message
(or `s` for an empty list). -/
def lastStatus (events : List VmEvent) (s : String) : String :=
  events.foldl (fun _ e => e.fullFormattedMessage) s

/-! ### Phase 2 polling loop (`clone_vm`, vmware_clone_template.py lines 214-221) -/

/-- `MAX_WAIT_TIME = 3600  # 60 minutes` (line 75). -/
def MAX_WAIT_TIME : Nat := 3600

/-- How a run of the Phase 2 `while True` loop ends. `failedEvent` /
`succeededEvent` are the aborts raised inside `check_events`; `timeout`
is the `fail_json` at line 221. -/
inductive PollResult where
  | failedEvent (msg : String)
  | succeededEvent (msg : String)
  | timeout (msg : String)
deriving DecidableEq

/-- Embeds the `while True` loop of `clone_vm` (lines 215-221).
`batches j` is the event list returned by the j-th
`get_events(content, vm_name)` query (the event stream is owned by
vCenter and merely observed, so it is a parameter).  Returns the way
the loop ended together with the number of event-stream queries made.
Each iteration scans the fetched batch, then sleeps 15 s, adds 15 to
`wait_time`, and fails once `wait_time > MAX_WAIT_TIME`. -/
def clone_poll (batches : Nat → List VmEvent) (i wait_time : Nat) : PollResult × Nat :=
  match check_events (batches i) "" with
  | .failedNow m => (.failedEvent m, 1)
  | .succeededNow m => (.succeededEvent m, 1)
  | .noTerminal current_status =>
    if h : wait_time + 15 > MAX_WAIT_TIME then
      (.timeout ("Exceeded Max Wait Time. Current state " ++ current_status), 1)
    else
      let r := clone_poll batches (i + 1) (wait_time + 15)
      (r.1, r.2 + 1)
termination_by MAX_WAIT_TIME + 15 - wait_time
decreasing_by simp only [MAX_WAIT_TIME] at *; omega

/-! ### Task wait (`wait_for_task`, vmware_clone_template.py lines 77-86) -/

/-- Embeds the body of `wait_for_task`: poll `task.info.state`
(`states j` is the state read at the j-th poll, as a raw string, since
the source compares against the literals `'success'` and `'error'`).
`fuel` bounds the number of polls modelled; the source loop is
unbounded, so `none` means the loop was still running after `fuel`
polls, `some (some r)` means it returned the task result, and
`some none` means it fell off the end after seeing `'error'`
(Python's implicit `return None`). -/
def wait_for_task_aux (states : Nat → String) (result : α) : Nat → Nat → Option (Option α)
  | _, 0 => none
  | i, fuel + 1 =>
    if states i = "success" then some (some result)
    else if states i = "error" then some none
    else wait_for_task_aux states result (i + 1) fuel

/-- `wait_for_task(task)` started at the first poll. -/
def wait_for_task (states : Nat → String) (result : α) (fuel : Nat) : Option (Option α) :=
  wait_for_task_aux states result 0 fuel

/-! ### Clone control flow after submission (`clone_vm`, lines 211-221) -/

/-- Embeds `clone_vm` lines 211-221: after `template.Clone` is
submitted, `wait_for_task(task)` is called with its result discarded,
and then — whenever a truthy customization template was supplied — the
Phase 2 polling loop runs, regardless of how the task ended.
`none`: the task wait was still looping after `fuel` polls (nothing
after line 212 runs); `some none`: `clone_vm` returned with no Phase 2
and no module exit; `some (some r)`: Phase 2 ran and ended as `r`. -/
def clone_after_submit (taskStates : Nat → String) (fuel : Nat)
    (hasCustomizationTemplate : Bool) (batches : Nat → List VmEvent) :
    Option (Option (PollResult × Nat)) :=
  match wait_for_task taskStates () fuel with
  | none => none
  | some _ =>
    some (if hasCustomizationTemplate then some (clone_poll batches 0 0) else none)

/-- Number of event-stream queries (`get_events` calls) issued after
the clone was submitted. -/
def phase2Queries : Option (Option (PollResult × Nat)) → Nat
  | some (some (_, n)) => n
  | _ => 0

/-- A module exit as produced by `module.exit_json` (success payload)
or `module.fail_json` (failure payload), with its changed-flag. -/
inductive ModuleExit where
  | exitJson (changed : Bool) (msg : String)
  | failJson (changed : Bool) (msg : String)
deriving DecidableEq

/-- The module exit produced by a whole clone run after submission
(lines 211-221): the aborts inside `check_events` and the timeout
abort all carry `changed=True`; a run that never reaches a
`fail_json`/`exit_json` call produces no payload at all. -/
def clone_workflow_result (taskStates : Nat → String) (fuel : Nat)
    (customization_template : Option String) (batches : Nat → List VmEvent) :
    Option ModuleExit :=
  match clone_after_submit taskStates fuel (strTruthy customization_template) batches with
  | none => none
  | some none => none
  | some (some (.failedEvent m, _)) => some (.failJson true m)
  | some (some (.succeededEvent m, _)) => some (.exitJson true m)
  | some (some (.timeout m, _)) => some (.failJson true m)

/-! ### Customization template lookup (`clone_vm`, lines 181-211) -/

/-- Where a clone run stops in lines 181-211: either the `fail_json`
at line 184 (before `template.Clone`), or the clone request is
submitted at line 211. -/
inductive CloneStage where
  | failedBeforeClone (msg : String)
  | cloneSubmitted
deriving DecidableEq

/-- Embeds lines 181-211 of `clone_vm`: with a truthy
`customization_template`, fetch the spec via
`GetCustomizationSpec` (`lookup`); a falsy result hits the
`fail_json` at line 184, aborting before the clone is submitted.  (The
message interpolates the rebound variable, which now holds the falsy
lookup result `None`.)  Otherwise execution reaches `template.Clone`
at line 211. -/
def clone_template_lookup_flow (lookup : String → Option Unit)
    (customization_template : Option String) : CloneStage :=
  if strTruthy customization_template then
    match lookup (customization_template.getD "") with
    | none => .failedBeforeClone "Customization Template None not found"
    | some _ => .cloneSubmitted
  else .cloneSubmitted

/-! ### Deploy command construction (`main`, vmware_ovf_deploy.py lines 163-191) -/

/-- Embeds the string concatenation at lines 163-191.  In the source
`vm_name` is bound with a stray trailing comma (line 146), making it a
1-tuple, and the format uses `vm_name[0]`, which is the raw parameter
again; `network_map` contributes its `ovf_name` and `target_name`
entries; `properties` is iterated in delivered order, each entry
appended as `--prop:key=value `.  Every value is interpolated
verbatim — no quoting or escaping function is applied anywhere. -/
def build_command (vm_name data_store disk_mode ovf_name target_name : String)
    (accept_all_eulas enable_hidden_properties no_ssl_verify
      machine_output power_on wait_for_ip : Bool)
    (properties : List (String × String))
    (ovf_path vcenter_username vcenter_password vcenter_host
      vcenter_inventory_path : String) : String :=
  let command :=
    "ovftool --name=\"" ++ vm_name ++ "\" --datastore=\"" ++ data_store ++
      "\" --diskMode=" ++ disk_mode ++ " --net:\"" ++ ovf_name ++ "\"=\"" ++
      target_name ++ "\" "
  let command := if accept_all_eulas then command ++ "--acceptAllEulas " else command
  let command := if enable_hidden_properties then command ++ "--X:enableHiddenProperties " else command
  let command := if no_ssl_verify then command ++ "--noSSLVerify " else command
  let command := if machine_output then command ++ "--machineOutput " else command
  let command := if power_on then command ++ "--powerOn " else command
  let command := if wait_for_ip then command ++ "--X:waitForIp " else command
  let command := properties.foldl
    (fun cmd kv => cmd ++ "--prop:" ++ kv.1 ++ "=" ++ kv.2 ++ " ") command
  command ++ "" ++ ovf_path ++ " " ++ "vi://\"" ++ vcenter_username ++ "\":\"" ++
    vcenter_password ++ "\"@" ++ vcenter_host ++ vcenter_inventory_path

/-! ### Deploy execution (`main`, vmware_ovf_deploy.py lines 197-207) -/

/-- What happened to the external process: `module.run_command`
returned `(rc, out, err)`, or raised `OSError` (tool could not be
started). -/
inductive RunOutcome where
  | completed (rc : Int) (out : String) (err : String)
  | osError
deriving DecidableEq

/-- The module exit of the deploy workflow. -/
inductive DeployOutcome where
  | checkModeExit (changed : Bool) (command : String)
  | success (changed : Bool) (stdout : String)
  | failure (msg : String)
deriving DecidableEq

/-- Embeds lines 197-207 of `vmware_ovf_deploy.main`: in check mode,
exit with the assembled command; otherwise run it — `fail_json` only
when `rc < 0`, else `exit_json(changed=True, stdout=out)`; on
`OSError` fail with `sys.stderr` (the source passes the stream object
itself as the message). -/
def deploy_run (check_mode : Bool) (command : String) (proc : RunOutcome) : DeployOutcome :=
  if check_mode then .checkModeExit true command
  else
    match proc with
    | .completed rc out err => if rc < 0 then .failure err else .success true out
    | .osError => .failure "sys.stderr"

/-! ### Generic in-order containment and suffix checks over strings -/

/-- Remainder of `s` after the first occurrence of `t`, if any. -/
def findAfter : List Char → List Char → Option (List Char)
  | s, t =>
    if t.isPrefixOf s then some (s.drop t.length)
    else
      match s with
      | [] => none
      | _ :: cs => findAfter cs t

/-- All of `ts` occur in `s`, in order and without overlap. -/
def containsInOrder (s : List Char) : List (List Char) → Bool
  | [] => true
  | t :: ts =>
    match findAfter s t with
    | none => false
    | some rest => containsInOrder rest ts

/-! ## Helper lemmas -/

theorem strTruthy_of_ne (n : String) (h : n ≠ "") : strTruthy (some n) = true := by
  simp only [strTruthy, Bool.not_eq_true']
  rw [← Bool.not_eq_true]
  intro hc
  exact h ((String.isEmpty_iff n).mp hc)

theorem strTruthy_some_empty : strTruthy (some "") = false := rfl

theorem get_obj_eq_find (cs : List InvObj) (n : String) (h : n ≠ "") :
    get_obj cs (some n) = cs.find? (fun c => c.name = n) := by
  induction cs with
  | nil => rfl
  | cons c rest ih =>
    simp only [get_obj, strTruthy_of_ne n h, if_true, List.find?]
    by_cases hc : n = c.name
    · simp [hc]
    · have hc' : ¬(c.name = n) := fun he => hc he.symm
      simp [hc, hc', ih]

theorem get_obj_none_head (cs : List InvObj) : get_obj cs none = cs.head? := by
  cases cs <;> rfl

theorem get_obj_empty_name_head (cs : List InvObj) :
    get_obj cs (some "") = cs.head? := by
  cases cs <;> rfl

theorem check_events_cons_terminal (e : VmEvent) (rest : List VmEvent) (s : String)
    (o : EventOutcome) (h : terminalOutcome e = some o) :
    check_events (e :: rest) s = o := by
  simp [check_events, h]

theorem check_events_all_nonterminal (batch : List VmEvent) :
    ∀ s, (∀ x ∈ batch, terminalOutcome x = none) →
      check_events batch s = .noTerminal (lastStatus batch s) := by
  induction batch with
  | nil => intro s _; rfl
  | cons e rest ih =>
    intro s h
    have he : terminalOutcome e = none := h e (List.mem_cons_self e rest)
    have hr : ∀ x ∈ rest, terminalOutcome x = none :=
      fun x hx => h x (List.mem_cons_of_mem e hx)
    simp only [check_events, he]
    rw [ih e.fullFormattedMessage hr]
    rfl

theorem check_events_append (pre : List VmEvent) :
    ∀ (rest : List VmEvent) (s : String), (∀ x ∈ pre, terminalOutcome x = none) →
      check_events (pre ++ rest) s = check_events rest (lastStatus pre s) := by
  induction pre with
  | nil => intro rest s _; rfl
  | cons e pre' ih =>
    intro rest s h
    have he : terminalOutcome e = none := h e (List.mem_cons_self e pre')
    have hp : ∀ x ∈ pre', terminalOutcome x = none :=
      fun x hx => h x (List.mem_cons_of_mem e hx)
    simp only [List.cons_append, check_events, he, List.append_eq]
    rw [ih rest e.fullFormattedMessage hp]
    rfl

theorem lastStatus_append_single (b : List VmEvent) (e : VmEvent) (s : String) :
    lastStatus (b ++ [e]) s = e.fullFormattedMessage := by
  simp [lastStatus, List.foldl_append]

/-! ## Claim C2 -/

/-- C2: in every event batch of the shape `pre ++ e :: post` where the
events of `pre` are non-terminal and `e` is a terminal event, the
event scan reports exactly the outcome mapped to `e`'s kind —
whatever surrounds it, and in particular whatever terminal events
appear later in `post` (first delivered terminal event wins) — and
each of the six terminal kinds maps to its variant-specific outcome
whose message appends the event's formatted text to the fixed
variant text. -/
theorem C2_terminal_event_outcome :
    (∀ (s : String) (pre post : List VmEvent) (e : VmEvent) (o : EventOutcome),
      (∀ x ∈ pre, terminalOutcome x = none) → terminalOutcome e = some o →
      check_events (pre ++ e :: post) s = o) ∧
    (∀ m, terminalOutcome ⟨"CustomizationSucceeded", m⟩ =
      some (.succeededNow ("Successfully Deployed and customized OS - " ++ m))) ∧
    (∀ m, terminalOutcome ⟨"CustomizationFailed", m⟩ =
      some (.failedNow ("Customization Failed - " ++ m))) ∧
    (∀ m, terminalOutcome ⟨"CustomizationLinuxIdentityFailed", m⟩ =
      some (.failedNow ("Customization Failed - Linux Identity Failed - " ++ m))) ∧
    (∀ m, terminalOutcome ⟨"CustomizationNetworkSetupFailed", m⟩ =
      some (.failedNow ("Customization Failed - Network Setup Failed - " ++ m))) ∧
    (∀ m, terminalOutcome ⟨"CustomizationSysprepFailed", m⟩ =
      some (.failedNow ("Customization Failed - Sysprep Failed - " ++ m))) ∧
    (∀ m, terminalOutcome ⟨"CustomizationUnknownFailure", m⟩ =
      some (.failedNow ("Customization Failed - Unknown Failure - " ++ m))) := by
  refine ⟨?_, fun m => rfl, fun m => rfl, fun m => rfl, fun m => rfl, fun m => rfl, fun m => rfl⟩
  intro s pre post e o hpre he
  rw [check_events_append pre (e :: post) s hpre]
  exact check_events_cons_terminal e post _ o he

/-- Witness for C2_terminal_event_outcome: a batch with two
non-terminal events around a success event, followed by a later
terminal failure event; the scan reports the success outcome of the
first terminal event. -/
theorem C2_terminal_event_outcome_witness :
    check_events
      [⟨"VmBeingClonedEvent", "cloning"⟩, ⟨"VmClonedEvent", "cloned"⟩,
        ⟨"CustomizationSucceeded", "all done"⟩, ⟨"CustomizationFailed", "late"⟩] "" =
      .succeededNow ("Successfully Deployed and customized OS - " ++ "all done") := by
  have h := C2_terminal_event_outcome.1 ""
    [⟨"VmBeingClonedEvent", "cloning"⟩, ⟨"VmClonedEvent", "cloned"⟩]
    [⟨"CustomizationFailed", "late"⟩]
    ⟨"CustomizationSucceeded", "all done"⟩
    (.succeededNow ("Successfully Deployed and customized OS - " ++ "all done"))
    (by decide) (by decide)
  exact h

theorem clone_poll_noTerminal_step (batches : Nat → List VmEvent) (i w : Nat)
    (st : String) (hce : check_events (batches i) "" = .noTerminal st)
    (hw : ¬ w + 15 > MAX_WAIT_TIME) :
    clone_poll batches i w =
      ((clone_poll batches (i + 1) (w + 15)).1, (clone_poll batches (i + 1) (w + 15)).2 + 1) := by
  rw [clone_poll, hce]
  simp [hw]

theorem clone_poll_noTerminal_timeout (batches : Nat → List VmEvent) (i w : Nat)
    (st : String) (hce : check_events (batches i) "" = .noTerminal st)
    (hw : w + 15 > MAX_WAIT_TIME) :
    clone_poll batches i w =
      (.timeout ("Exceeded Max Wait Time. Current state " ++ st), 1) := by
  rw [clone_poll, hce]
  simp [hw]

theorem clone_poll_succeeded (batches : Nat → List VmEvent) (i w : Nat)
    (m : String) (hce : check_events (batches i) "" = .succeededNow m) :
    clone_poll batches i w = (.succeededEvent m, 1) := by
  rw [clone_poll, hce]

theorem clone_poll_failed (batches : Nat → List VmEvent) (i w : Nat)
    (m : String) (hce : check_events (batches i) "" = .failedNow m) :
    clone_poll batches i w = (.failedEvent m, 1) := by
  rw [clone_poll, hce]

theorem clone_poll_timeout_of_nonterminal (batches : Nat → List VmEvent)
    (h : ∀ j, ∀ x ∈ batches j, terminalOutcome x = none) :
    ∀ (r i w : Nat), 1 ≤ r → w + 15 * r = MAX_WAIT_TIME + 15 →
      clone_poll batches i w =
        (.timeout ("Exceeded Max Wait Time. Current state " ++
          lastStatus (batches (i + (r - 1))) ""), r) := by
  intro r
  induction r with
  | zero => intro i w hr _; omega
  | succ r ih =>
    intro i w _ hsum
    have hce := check_events_all_nonterminal (batches i) "" (h i)
    by_cases hr0 : r = 0
    · subst hr0
      have hw : w + 15 > MAX_WAIT_TIME := by
        simp only [MAX_WAIT_TIME] at *; omega
      simpa using clone_poll_noTerminal_timeout batches i w _ hce hw
    · have hr1 : 1 ≤ r := Nat.one_le_iff_ne_zero.mpr hr0
      have hw : ¬ w + 15 > MAX_WAIT_TIME := by
        simp only [MAX_WAIT_TIME] at *; omega
      rw [clone_poll_noTerminal_step batches i w _ hce hw]
      rw [ih (i + 1) (w + 15) hr1 (by omega)]
      have hidx : i + 1 + (r - 1) = i + (r + 1 - 1) := by omega
      rw [hidx]

/-! ## Claim C3 -/

/-- C3: in every run of the Phase 2 polling loop whose fetched batches
never contain a terminal event, the loop accumulates `wait_time` by 15
per iteration against `MAX_WAIT_TIME = 3600` and ends in the timeout
failure exactly at the 241st event-stream observation, with a message
embedding the last seen non-terminal status text (the status returned
by the scan of the 241st batch, index 240). -/
theorem C3_timeout_after_241_observations (batches : Nat → List VmEvent)
    (h : ∀ j, ∀ x ∈ batches j, terminalOutcome x = none) :
    clone_poll batches 0 0 =
      (.timeout ("Exceeded Max Wait Time. Current state " ++
        lastStatus (batches 240) ""), 241) := by
  have := clone_poll_timeout_of_nonterminal batches h 241 0 0 (by omega) (by decide)
  simpa using this

/-- Witness for C3_timeout_after_241_observations: every batch is the
same single non-terminal event. -/
theorem C3_timeout_after_241_observations_witness :
    clone_poll (fun _ => [⟨"VmClonedEvent", "template cloned"⟩]) 0 0 =
      (.timeout ("Exceeded Max Wait Time. Current state " ++ "template cloned"), 241) := by
  have h := C3_timeout_after_241_observations
    (fun _ => [⟨"VmClonedEvent", "template cloned"⟩])
    (by intro j x hx; simp at hx; subst hx; rfl)
  simpa [lastStatus] using h

/-! ## Claim C10 -/

/-- C10: when a batch contains no terminal event the scan returns the
formatted message of the last event as the current status (later
events overwrite earlier ones — for a batch `b ++ [e]` the status is
`e`'s message), the empty batch yields the empty string, and in a
polling run whose batches are all non-terminal the timeout failure
message embeds exactly that returned status of the last scanned
batch. -/
theorem C10_nonterminal_status_last_message :
    (∀ batch : List VmEvent, (∀ x ∈ batch, terminalOutcome x = none) →
      check_events batch "" = .noTerminal (lastStatus batch "")) ∧
    (∀ (b : List VmEvent) (e : VmEvent), lastStatus (b ++ [e]) "" = e.fullFormattedMessage) ∧
    check_events [] "" = .noTerminal "" ∧
    (∀ batches : Nat → List VmEvent, (∀ j, ∀ x ∈ batches j, terminalOutcome x = none) →
      (clone_poll batches 0 0).1 =
        .timeout ("Exceeded Max Wait Time. Current state " ++ lastStatus (batches 240) "")) := by
  refine ⟨fun batch h => check_events_all_nonterminal batch "" h,
    fun b e => lastStatus_append_single b e "", rfl, ?_⟩
  intro batches h
  rw [clone_poll_timeout_of_nonterminal batches h 241 0 0 (by omega) (by decide)]

/-- Witness for C10_nonterminal_status_last_message at a concrete
two-event non-terminal batch. -/
theorem C10_nonterminal_status_last_message_witness :
    check_events [⟨"VmBeingClonedEvent", "cloning"⟩, ⟨"VmClonedEvent", "cloned"⟩] "" =
      .noTerminal "cloned" ∧
    (clone_poll (fun _ => [⟨"VmBeingClonedEvent", "cloning"⟩, ⟨"VmClonedEvent", "cloned"⟩]) 0 0).1 =
      .timeout ("Exceeded Max Wait Time. Current state " ++ "cloned") := by
  have hnt : ∀ x ∈ [(⟨"VmBeingClonedEvent", "cloning"⟩ : VmEvent), ⟨"VmClonedEvent", "cloned"⟩],
      terminalOutcome x = none := by
    intro x hx
    simp at hx
    rcases hx with h | h <;> subst h <;> rfl
  constructor
  · have h := C10_nonterminal_status_last_message.1
      [⟨"VmBeingClonedEvent", "cloning"⟩, ⟨"VmClonedEvent", "cloned"⟩] hnt
    simpa [lastStatus] using h
  · have h := C10_nonterminal_status_last_message.2.2.2
      (fun _ => [⟨"VmBeingClonedEvent", "cloning"⟩, ⟨"VmClonedEvent", "cloned"⟩])
      (fun _ => hnt)
    simpa [lastStatus] using h

theorem wait_for_task_aux_error (states : Nat → String) (r : α) :
    ∀ (fuel i k : Nat), k < fuel → states (i + k) = "error" →
      (∀ j < k, states (i + j) ≠ "success" ∧ states (i + j) ≠ "error") →
      wait_for_task_aux states r i fuel = some none := by
  intro fuel
  induction fuel with
  | zero => intro i k hk _ _; omega
  | succ f ih =>
    intro i k hk herr hrun
    cases k with
    | zero =>
      have h0 : states i = "error" := by simpa using herr
      have hs : ¬ states i = "success" := by
        rw [h0]; decide
      simp [wait_for_task_aux, hs, h0]
    | succ k' =>
      have h0 := hrun 0 (Nat.succ_pos k')
      have hs : ¬ states i = "success" := by simpa using h0.1
      have he : ¬ states i = "error" := by simpa using h0.2
      simp only [wait_for_task_aux, hs, if_false, he]
      refine ih (i + 1) k' (by omega) ?_ ?_
      · have : i + 1 + k' = i + (k' + 1) := by omega
        rw [this]; exact herr
      · intro j hj
        have : i + 1 + j = i + (j + 1) := by omega
        rw [this]
        exact hrun (j + 1) (by omega)

/-! ## Claim C1 -/

/-- C1, counterexample: a run in which the clone task is in the error
state at the very first poll, with a customization template supplied
and every event batch empty — the claim says no event-stream query is
ever issued, but the workflow proceeds to Phase 2 and issues 241
event-stream queries before failing on the timeout, not on the task
error. -/
theorem C1_counterexample_error_task_still_polls_events :
    phase2Queries (clone_after_submit (fun _ => "error") 1 true (fun _ => [])) = 241 := by
  have hq := clone_poll_timeout_of_nonterminal (fun _ => ([] : List VmEvent))
    (by intro j x hx; simp at hx) 241 0 0 (by omega) (by decide)
  have hw : wait_for_task (fun _ => "error") () 1 = some none := by decide
  rw [clone_after_submit, hw]
  simp only [if_true]
  rw [hq]
  rfl

/-- C1, amended: in every run in which the clone task terminates in
the error state, the task-wait loop stops waiting and returns no
result (Python `None`) rather than the task result, but the workflow
does not stop there: whenever a customization template was supplied it
still proceeds to Phase 2 and runs the event-polling loop; no hard
failure is raised by the wait itself. -/
theorem C1_amended_error_task_proceeds_to_phase2 (states : Nat → String)
    (fuel k : Nat) (batches : Nat → List VmEvent)
    (herr : states k = "error")
    (hrun : ∀ j < k, states j ≠ "success" ∧ states j ≠ "error")
    (hfuel : k < fuel) :
    wait_for_task states () fuel = some none ∧
    clone_after_submit states fuel true batches = some (some (clone_poll batches 0 0)) := by
  have hw : wait_for_task_aux states () 0 fuel = some none :=
    wait_for_task_aux_error states () fuel 0 k hfuel (by simpa using herr)
      (by simpa using hrun)
  refine ⟨hw, ?_⟩
  simp only [clone_after_submit, wait_for_task, hw, if_true]

/-- Witness for C1_amended_error_task_proceeds_to_phase2: the task is
in the error state at the first poll. -/
theorem C1_amended_error_task_proceeds_to_phase2_witness :
    wait_for_task (fun _ => "error") () 1 = some none ∧
    clone_after_submit (fun _ => "error") 1 true (fun _ => [⟨"VmClonedEvent", "done"⟩]) =
      some (some (clone_poll (fun _ => [⟨"VmClonedEvent", "done"⟩]) 0 0)) :=
  C1_amended_error_task_proceeds_to_phase2 (fun _ => "error") 1 0
    (fun _ => [⟨"VmClonedEvent", "done"⟩]) rfl
    (fun j hj => absurd hj (Nat.not_lt_zero j)) (by omega)

/-! ## Claim C8 -/

/-- C8: in every clone run in which a named (truthy) customization
template is supplied and `GetCustomizationSpec` returns no spec, the
run ends in the configuration-error `fail_json` before line 211, so
the clone request is never submitted. -/
theorem C8_missing_spec_fails_before_clone (lookup : String → Option Unit)
    (name : String) (hname : name ≠ "") (hlook : lookup name = none) :
    clone_template_lookup_flow lookup (some name) =
      .failedBeforeClone "Customization Template None not found" ∧
    clone_template_lookup_flow lookup (some name) ≠ .cloneSubmitted := by
  have ht := strTruthy_of_ne name hname
  have hfl : clone_template_lookup_flow lookup (some name) =
      .failedBeforeClone "Customization Template None not found" := by
    simp [clone_template_lookup_flow, ht, hlook]
  exact ⟨hfl, by rw [hfl]; intro hc; exact CloneStage.noConfusion hc⟩

/-- Witness for C8_missing_spec_fails_before_clone: a lookup that
finds nothing, template name `"spec1"`. -/
theorem C8_missing_spec_fails_before_clone_witness :
    clone_template_lookup_flow (fun _ => none) (some "spec1") =
      .failedBeforeClone "Customization Template None not found" ∧
    clone_template_lookup_flow (fun _ => none) (some "spec1") ≠ .cloneSubmitted :=
  C8_missing_spec_fails_before_clone (fun _ => none) "spec1" (by decide) rfl

/-! ## Claim C5 -/

/-- C5, counterexample: a clone run whose task succeeds at the first
poll but where no customization template was supplied — against the
claim, no success payload (no `exit_json` call) is produced at all:
`clone_vm` simply returns and the module ends without emitting any
result. -/
theorem C5_counterexample_no_template_no_payload :
    clone_workflow_result (fun _ => "success") 1 none (fun _ => []) = none := by
  decide

/-- C5, amended: the deploy workflow on a zero exit code returns the
success payload with a changed-flag and the captured stdout, and a
clone run with a named customization template whose polling loop
observes the Succeeded event returns the success payload with a
changed-flag and the status message; but a clone run with no named
customization template produces no payload at all. -/
theorem C5_amended_success_payloads :
    (∀ cmd out err : String,
      deploy_run false cmd (.completed 0 out err) = .success true out) ∧
    (∀ (ts : Nat → String) (fuel : Nat) (ct : Option String)
        (batches : Nat → List VmEvent) (m : String),
      strTruthy ct = true → wait_for_task ts () fuel ≠ none →
      (clone_poll batches 0 0).1 = .succeededEvent m →
      clone_workflow_result ts fuel ct batches = some (.exitJson true m)) ∧
    (∀ (ts : Nat → String) (fuel : Nat) (batches : Nat → List VmEvent),
      clone_workflow_result ts fuel none batches = none) := by
  refine ⟨fun cmd out err => rfl, ?_, ?_⟩
  · intro ts fuel ct batches m hct hw hp
    cases hwt : wait_for_task ts () fuel with
    | none => exact absurd hwt hw
    | some w =>
      have hcp : clone_poll batches 0 0 =
          (.succeededEvent m, (clone_poll batches 0 0).2) := by
        cases hc : clone_poll batches 0 0 with
        | mk a b =>
          rw [hc] at hp
          simp at hp
          rw [hp]
      rw [clone_workflow_result, clone_after_submit, hwt]
      rw [hct]
      simp only [if_true]
      rw [hcp]
  · intro ts fuel batches
    cases hwt : wait_for_task ts () fuel with
    | none => rw [clone_workflow_result, clone_after_submit, hwt]
    | some w =>
      rw [clone_workflow_result, clone_after_submit, hwt]
      rfl

/-- Witness for C5_amended_success_payloads: deploy with exit code 0,
and a clone run whose first batch holds the Succeeded event. -/
theorem C5_amended_success_payloads_witness :
    deploy_run false "c" (.completed 0 "o" "e") = .success true "o" ∧
    clone_workflow_result (fun _ => "success") 1 (some "t")
      (fun _ => [⟨"CustomizationSucceeded", "ok"⟩]) =
      some (.exitJson true ("Successfully Deployed and customized OS - " ++ "ok")) := by
  refine ⟨C5_amended_success_payloads.1 "c" "o" "e", ?_⟩
  have hce : check_events [(⟨"CustomizationSucceeded", "ok"⟩ : VmEvent)] "" =
      .succeededNow ("Successfully Deployed and customized OS - " ++ "ok") := rfl
  have hp : (clone_poll (fun _ => [(⟨"CustomizationSucceeded", "ok"⟩ : VmEvent)]) 0 0).1 =
      .succeededEvent ("Successfully Deployed and customized OS - " ++ "ok") := by
    rw [clone_poll_succeeded _ 0 0 _ hce]
  exact C5_amended_success_payloads.2.1 (fun _ => "success") 1 (some "t") _ _
    rfl (by decide) hp

/-! ## Claim C4 -/

/-- C4, evaluated at the failing input: with check mode off, an
external-tool exit code of 1 (the deployment tool failing normally)
is reported as the success payload carrying the captured stdout —
only a negative exit code reaches the failure branch.  This
contradicts the claim (and the spec's error taxonomy), which demands a
failure payload for every nonzero exit code. -/
theorem C4_nonzero_exit_code_reported_as_success :
    deploy_run false "ovftool" (.completed 1 "tool output" "tool error") =
      .success true "tool output" ∧
    deploy_run false "ovftool" (.completed (-1) "tool output" "tool error") =
      .failure "tool error" ∧
    deploy_run false "ovftool" .osError = .failure "sys.stderr" := by
  refine ⟨by decide, by decide, rfl⟩

/-! ## Claim C7 -/

/-- C7: for every choice of the remaining string parameters, the
command built from `vm_name="x"`, `data_store="ds1"`,
`disk_mode="thin"`, `network_map = (ovf_name "A", target_name "B")`,
`properties = [("k","v")]` and all boolean flags false interpolates
every value verbatim (no escaping) into the fixed shape; with concrete
credentials the command contains the name/datastore/diskMode/net
tokens and then the `--prop:k=v` token in order, and ends with the OVF
source path followed by the `vi://` locator built from the username,
password, host and inventory path. -/
theorem C7_command_construction :
    (∀ vm ds dm onm tn k v ovf u p h ip : String,
      build_command vm ds dm onm tn false false false false false false
        [(k, v)] ovf u p h ip =
        "ovftool --name=\"" ++ vm ++ "\" --datastore=\"" ++ ds ++ "\" --diskMode=" ++ dm ++
          " --net:\"" ++ onm ++ "\"=\"" ++ tn ++ "\" " ++ "--prop:" ++ k ++ "=" ++ v ++ " " ++
          "" ++ ovf ++ " " ++ "vi://\"" ++ u ++ "\":\"" ++ p ++ "\"@" ++ h ++ ip) ∧
    containsInOrder (build_command "x" "ds1" "thin" "A" "B" false false false false false false
      [("k", "v")] "/tmp/vm.ova" "user" "pass" "vchost" "/dc/host").data
      ["--name=\"x\"".data, "--datastore=\"ds1\"".data, "--diskMode=thin".data,
        "--net:\"A\"=\"B\"".data, "--prop:k=v".data] = true ∧
    ("/tmp/vm.ova vi://\"user\":\"pass\"@vchost/dc/host".data).isSuffixOf
      (build_command "x" "ds1" "thin" "A" "B" false false false false false false
        [("k", "v")] "/tmp/vm.ova" "user" "pass" "vchost" "/dc/host").data = true := by
  refine ⟨fun vm ds dm onm tn k v ovf u p h ip => rfl, by decide, by decide⟩

/-- C6, counterexample: the claim quantifies over every non-null
supplied name, but for the non-null name `""` against the one-element
inventory `[{name := "a"}]` the lookup returns that candidate even
though its name is not `""` — the returned object is not "the first
candidate whose name equals that exact name". -/
theorem C6_counterexample_empty_name_lookup :
    get_obj [⟨"a"⟩] (some "") = some ⟨"a"⟩ ∧ ("a" : String) ≠ "" := by
  constructor
  · rfl
  · decide

/-- C6, amended: for every inventory query over candidates in
inventory-provided order, when a non-null, non-empty name is supplied
the result is the first candidate whose name equals that exact name
(null when the inventory is empty or no candidate matches); when no
name is supplied — or the supplied name is the empty string, which the
code treats as absent — the result is the first candidate encountered
(null for an empty inventory). -/
theorem C6_amended_obj_lookup :
    (∀ (cs : List InvObj) (n : String), n ≠ "" →
      get_obj cs (some n) = cs.find? (fun c => c.name = n)) ∧
    (∀ cs : List InvObj, get_obj cs none = cs.head?) ∧
    (∀ cs : List InvObj, get_obj cs (some "") = cs.head?) :=
  ⟨fun cs n h => get_obj_eq_find cs n h, get_obj_none_head, get_obj_empty_name_head⟩

/-- Witness for C6_amended_obj_lookup at a concrete inventory. -/
theorem C6_amended_obj_lookup_witness :
    get_obj [⟨"a"⟩, ⟨"b"⟩] (some "b") = some ⟨"b"⟩ ∧
    get_obj [⟨"a"⟩, ⟨"b"⟩] none = some ⟨"a"⟩ ∧
    get_obj ([] : List InvObj) (some "b") = none := by
  refine ⟨?_, C6_amended_obj_lookup.2.1 [⟨"a"⟩, ⟨"b"⟩], ?_⟩
  · rw [C6_amended_obj_lookup.1 [⟨"a"⟩, ⟨"b"⟩] "b" (by decide)]
    decide
  · rw [C6_amended_obj_lookup.1 [] "b" (by decide)]
    rfl

/-! ## Claim C9 -/

/-- C9: the object-lookup function treats an empty-string name the
same as an absent name — for every non-empty candidate list, a query
with the empty-string name returns the first candidate (so defaulted
parameters passed as empty strings silently select the first object),
exactly as a query with no name does. -/
theorem C9_empty_string_name_first_candidate :
    ∀ (c : InvObj) (cs : List InvObj),
      get_obj (c :: cs) (some "") = some c ∧
      get_obj (c :: cs) (some "") = get_obj (c :: cs) none :=
  fun _ _ => ⟨rfl, rfl⟩
